import Mathlib

/-!
The slackinviter service: invitation workflow and team-state poller.

Shallow embedding of `main.go` (package main) and `slack/inviter.go`
(package slack).

* The process-wide `expvar.Int` variables and `ourTeam` are the fields of
  `Globals`; every operation takes the globals and returns the new ones.
* `expvar.Int` holds an `int64`.  The values are modelled as `Int`: the
  counters move by one per request or per counted member, so the 64-bit range
  is out of reach and no wrap-around is modelled.
* Calls that leave the process (reCAPTCHA `Verify`, Slack `InviteToTeam`,
  `GetTeamInfo`, `UserPagination.Next`, `net.SplitHostPort`) are answered by
  the environment: an `Env` of answer functions for the request path, a script
  of successive `Next` answers and one `GetTeamInfo` answer for the poller.
  Every operation also returns the list of external calls it made.
* `time.Duration` is a number of nanoseconds.
-/

namespace SlackInviter

/-! ## Package slack: data -/

/-- The `slack.TeamInfo` value returned by `GetTeamInfo` (fields used for the
cached team). -/
structure TeamInfo where
  Name : String
  Domain : String
deriving DecidableEq, Repr

/-- Modelled from the spec: the type `team` of package slack (its file is not
part of the sources at hand); a TeamSnapshot with a domain and a display
name. -/
structure team where
  name : String
  domain : String
deriving DecidableEq, Repr

/-- Modelled from the spec: `(*team).Update`, missing from the sources; a fresh
metadata fetch replaces the snapshot. -/
def team.Update (_t : team) (st : TeamInfo) : team :=
  { name := st.Name, domain := st.Domain }

/-- Modelled from the spec: `(*team).Domain`, missing from the sources; the
cached workspace domain. -/
def team.Domain (t : team) : String := t.domain

/-- The process-wide variables: the `expvar.Int`s of package main
(`main.go` 24-31), those of package slack (`inviter.go` 25-32) and
`ourTeam` (`inviter.go` 40-42). -/
structure Globals where
  hitsPerMinute : Int
  requests : Int
  missingFirstName : Int
  missingLastName : Int
  missingEmail : Int
  missingCoC : Int
  successfulCaptcha : Int
  failedCaptcha : Int
  FailedCaptcha : Int
  InvalidCaptcha : Int
  SuccessfulInvites : Int
  InviteErrors : Int
  ActiveUserCount : Int
  UserCount : Int
  ourTeam : team
deriving DecidableEq, Repr

/-- The map "metrics" filled by `init` (`main.go` 60-73): each published name
with the value of the variable it points to.  The package-main variable
`failedCaptcha` is not published; "failed_captcha" is `slack.FailedCaptcha`. -/
def registry (g : Globals) : List (String × Int) :=
  [ ("hits_per_minute", g.hitsPerMinute),
    ("requests", g.requests),
    ("invite_errors", g.InviteErrors),
    ("missing_first_name", g.missingFirstName),
    ("missing_last_name", g.missingLastName),
    ("missing_email", g.missingEmail),
    ("missing_coc", g.missingCoC),
    ("failed_captcha", g.FailedCaptcha),
    ("invalid_captcha", g.InvalidCaptcha),
    ("successful_captcha", g.successfulCaptcha),
    ("successful_invites", g.SuccessfulInvites),
    ("active_user_count", g.ActiveUserCount),
    ("user_count", g.UserCount) ]

/-! ## External calls of the request path -/

/-- A call that leaves the process while a request is handled. -/
inductive ExtCall where
  | Verify (captchaResponse remoteIP : String)
  | InviteToTeam (domain fname lname email : String)
deriving DecidableEq, Repr

/-- Answers of the outside world on the request path.
`Verify` gives `(valid, err)`, `InviteToTeam` gives `err` (`none` is nil),
`SplitHostPort` gives `(host, port)` or an error. -/
structure Env where
  Verify : String → String → Bool × Option String
  InviteToTeam : String → String → String → String → Option String
  SplitHostPort : String → Except String (String × String)

/-- The error values `Invite` can return. -/
inductive InviteErr where
  | ErrValidatingCatchpta
  | invalidRecaptcha
  | api (msg : String)
deriving DecidableEq, Repr

/-- The method `Error()` of the returned error. -/
def InviteErr.Error : InviteErr → String
  | .ErrValidatingCatchpta => "Error validating recaptcha.. Did you click it?"
  | .invalidRecaptcha => "Invalid recaptcha"
  | .api msg => msg

/-- What `Invite` hands back: the new globals, the returned error (`none` is
nil) and the external calls made, in order. -/
structure InviteResult where
  g : Globals
  err : Option InviteErr
  calls : List ExtCall
deriving DecidableEq, Repr

/-- The method `Inviter.Invite` (`inviter.go` 60-80). -/
def Invite (env : Env) (g : Globals)
    (fname lname email captchaResponse remoteIP : String) : InviteResult :=
  match env.Verify captchaResponse remoteIP with
  | (_, some _) =>
      { g := { g with FailedCaptcha := g.FailedCaptcha + 1 },
        err := some .ErrValidatingCatchpta,
        calls := [.Verify captchaResponse remoteIP] }
  | (valid, none) =>
      if !valid then
        { g := { g with InvalidCaptcha := g.InvalidCaptcha + 1 },
          err := some .invalidRecaptcha,
          calls := [.Verify captchaResponse remoteIP] }
      else
        match env.InviteToTeam g.ourTeam.Domain fname lname email with
        | some e =>
            { g := { g with InviteErrors := g.InviteErrors + 1 },
              err := some (.api e),
              calls := [.Verify captchaResponse remoteIP,
                        .InviteToTeam g.ourTeam.Domain fname lname email] }
        | none =>
            { g := { g with SuccessfulInvites := g.SuccessfulInvites + 1 },
              err := none,
              calls := [.Verify captchaResponse remoteIP,
                        .InviteToTeam g.ourTeam.Domain fname lname email] }

/-! ## Badge -/

/-- The arguments `RenderBadge` passes to `badge.Render`. -/
structure Badge where
  subject : String
  status : String
  color : String
deriving DecidableEq, Repr

/-- The method `expvar.Int.String`: the value in base 10. -/
def IntString (v : Int) : String := toString v

/-- The method `Inviter.RenderBadge` (`inviter.go` 82-94), up to the call of
`badge.Render`. -/
def RenderBadge (g : Globals) : Badge :=
  let users := IntString g.UserCount
  let users :=
    if g.ActiveUserCount > 0 then
      IntString g.ActiveUserCount ++ "/" ++ IntString g.UserCount
    else users
  { subject := "slack", status := users, color := "#E01563" }

/-! ## Poller -/

/-- A member as returned by the Slack client (`slack.User`), with the fields
the poller reads. -/
structure User where
  ID : String
  IsBot : Bool
  Deleted : Bool
  Presence : String
deriving DecidableEq, Repr

/-- The errors `UserPagination.Next` can return: the end-of-pagination value
recognised by `Done`, a `*slack.RateLimitedError` with its `RetryAfter`, or
any other error. -/
inductive SlackError where
  | paginationComplete
  | rateLimited (RetryAfter : Nat)
  | other (msg : String)
deriving DecidableEq, Repr

/-- The client's `slack.UserPagination`: the current page of users and the
client's own position (its cursor). -/
structure UserPagination where
  Users : List User
  cursor : String
deriving DecidableEq, Repr

/-- The method `UserPagination.Done`: true exactly on the end-of-pagination
value. -/
def Done (err : Option SlackError) : Bool :=
  err == some .paginationComplete

/-- The value of `GetUsersPaginated(...)`: no page fetched yet. -/
def GetUsersPaginated : UserPagination := { Users := [], cursor := "" }

/-- What the poller does towards the outside, in order. -/
inductive PollEvent where
  | Next (p : UserPagination)
  | Sleep (d : Nat)
  | GetTeamInfo
deriving DecidableEq, Repr

/-- One answer of `p.Next(ctx)`: the returned pagination and error. -/
abbrev NextAnswer := UserPagination × Option SlackError

/-- The body of the inner loop (`inviter.go` 147-152) for one member. -/
def countUser (acc : Int × Int) (u : User) : Int × Int :=
  if u.ID ≠ "USLACKBOT" ∧ u.IsBot = false ∧ u.Deleted = false then
    (acc.1 + 1, if u.Presence = "active" then acc.2 + 1 else acc.2)
  else acc

/-- The inner loop `for _, u := range p.Users` (`inviter.go` 146-153) on the
running totals `(uCount, aCount)`. -/
def countUsers (users : List User) (acc : Int × Int) : Int × Int :=
  users.foldl countUser acc

/-- The variables of `UpdateFromSlack` when its `for` loop ends, with the
events so far. -/
structure LoopExit where
  p : UserPagination
  err : Option SlackError
  uCount : Int
  aCount : Int
  trace : List PollEvent
deriving DecidableEq, Repr

/-- The `for` loop of `UpdateFromSlack` (`inviter.go` 135-156), entered at its
condition with the loop variables `p`, `err`, `uCount`, `aCount`.  The script
holds the answers of the coming calls of `p.Next(ctx)`; the loop is still
running when the script is used up (`none`). -/
def pagingLoop : List NextAnswer → UserPagination → Option SlackError →
    Int → Int → List PollEvent → Option LoopExit
  | script, p, err, uCount, aCount, tr =>
    if Done err then
      some { p := p, err := err, uCount := uCount, aCount := aCount, trace := tr }
    else
      match err with
      | some (.rateLimited d) =>
          match script with
          | [] => none
          | (p1, err1) :: rest =>
              pagingLoop rest p1 err1 uCount aCount (tr ++ [.Sleep d, .Next p])
      | _ =>
          let c := countUsers p.Users (uCount, aCount)
          match script with
          | [] => none
          | (p1, err1) :: rest =>
              pagingLoop rest p1 err1 c.1 c.2 (tr ++ [.Next p])

/-- The constant `time.Minute`. -/
def Minute : Nat := 60 * 1000000000

/-- The constant `time.Hour`. -/
def Hour : Nat := 60 * Minute

/-- What one poll cycle hands back: the new globals, the returned sleep
duration and the events of the cycle. -/
structure PollResult where
  g : Globals
  delay : Nat
  trace : List PollEvent
deriving DecidableEq, Repr

/-- The method `Inviter.UpdateFromSlack` (`inviter.go` 127-171). -/
def UpdateFromSlack (script : List NextAnswer) (teamInfo : Except String TeamInfo)
    (g : Globals) : Option PollResult :=
  match pagingLoop script GetUsersPaginated none 0 0 [] with
  | none => none
  | some l =>
      let g1 := { g with UserCount := l.uCount, ActiveUserCount := l.aCount }
      if l.err ≠ none ∧ Done l.err = false then
        some { g := g1, delay := Minute, trace := l.trace }
      else
        match teamInfo with
        | .error _ =>
            some { g := g1, delay := Minute, trace := l.trace ++ [.GetTeamInfo] }
        | .ok st =>
            some { g := { g1 with ourTeam := g1.ourTeam.Update st },
                   delay := Hour, trace := l.trace ++ [.GetTeamInfo] }

/-! ## Package main: handlers -/

/-- The parts of `*http.Request` the handlers read. -/
structure Request where
  Method : String
  Form : List (String × String)
  RemoteAddr : String
deriving DecidableEq, Repr

/-- The method `Request.FormValue`: the first value of the key, or "". -/
def Request.FormValue (r : Request) (key : String) : String :=
  match r.Form.lookup key with
  | some v => v
  | none => ""

/-- What the handler wrote: status code and body. -/
structure Response where
  status : Nat
  body : String
deriving DecidableEq, Repr

/-- The function `http.Error(w, msg, code)`: the code, and the message on a
line. -/
def httpError (msg : String) (code : Nat) : Response :=
  { status := code, body := msg ++ "\n" }

/-- The constant `http.StatusNotFound`. -/
def StatusNotFound : Nat := 404

/-- The constant `http.StatusPreconditionFailed`. -/
def StatusPreconditionFailed : Nat := 412

/-- The constant `http.StatusInternalServerError`. -/
def StatusInternalServerError : Nat := 500

/-- The function `http.StatusText` on the codes used here. -/
def StatusText (code : Nat) : String :=
  if code = 404 then "Not Found"
  else if code = 500 then "Internal Server Error"
  else ""

/-- What `handleInvite` hands back: the new globals, the response and the
external calls made. -/
structure HandlerResult where
  g : Globals
  resp : Response
  calls : List ExtCall
deriving DecidableEq, Repr

/-- The handler `handleInvite` (`main.go` 133-181). -/
def handleInvite (env : Env) (g : Globals) (r : Request) : HandlerResult :=
  if r.Method ≠ "POST" then
    { g := g, resp := httpError (StatusText StatusNotFound) StatusNotFound, calls := [] }
  else
    let g := { g with successfulCaptcha := g.successfulCaptcha + 1 }
    let fname := r.FormValue "fname"
    let lname := r.FormValue "lname"
    let email := r.FormValue "email"
    let coc := r.FormValue "coc"
    if email = "" then
      { g := { g with missingEmail := g.missingEmail + 1 },
        resp := httpError "Missing email" StatusPreconditionFailed, calls := [] }
    else if fname = "" then
      { g := { g with missingFirstName := g.missingFirstName + 1 },
        resp := httpError "Missing first name" StatusPreconditionFailed, calls := [] }
    else if lname = "" then
      { g := { g with missingLastName := g.missingLastName + 1 },
        resp := httpError "Missing last name" StatusPreconditionFailed, calls := [] }
    else if coc ≠ "1" then
      { g := { g with missingCoC := g.missingCoC + 1 },
        resp := httpError "You need to accept the code of conduct" StatusPreconditionFailed,
        calls := [] }
    else
      match env.SplitHostPort r.RemoteAddr with
      | .error _ =>
          { g := { g with failedCaptcha := g.failedCaptcha + 1 },
            resp := httpError (StatusText StatusInternalServerError) StatusInternalServerError,
            calls := [] }
      | .ok (remoteIP, _) =>
          let captchaResponse := r.FormValue "g-recaptcha-response"
          let res := Invite env g fname lname email captchaResponse remoteIP
          match res.err with
          | some e =>
              if e = .ErrValidatingCatchpta then
                { g := res.g, resp := httpError e.Error StatusPreconditionFailed,
                  calls := res.calls }
              else
                { g := res.g, resp := httpError e.Error StatusInternalServerError,
                  calls := res.calls }
          | none =>
              { g := res.g, resp := { status := 200, body := "" }, calls := res.calls }

/-- The handler `homepage` (`main.go` 124-130), up to the rendering; `rate` is
the value of `counter.Rate()` after `counter.Incr(1)`. -/
def homepage (rate : Int) (g : Globals) : Globals :=
  let g := { g with hitsPerMinute := rate }
  { g with requests := g.requests + 1 }

/-! ## Concrete values used in the examples -/

/-- Globals with every counter at zero and an empty team. -/
def zeroGlobals : Globals :=
  { hitsPerMinute := 0, requests := 0, missingFirstName := 0, missingLastName := 0,
    missingEmail := 0, missingCoC := 0, successfulCaptcha := 0, failedCaptcha := 0,
    FailedCaptcha := 0, InvalidCaptcha := 0, SuccessfulInvites := 0, InviteErrors := 0,
    ActiveUserCount := 0, UserCount := 0, ourTeam := { name := "Gophers", domain := "gophers" } }

/-- An outside world in which the address parses, the captcha check answers
`valid` and the invitation goes through. -/
def envWith (valid : Bool) : Env :=
  { Verify := fun _ _ => (valid, none),
    InviteToTeam := fun _ _ _ _ => none,
    SplitHostPort := fun a => .ok (a, "0") }

/-- A POST request with the given form. -/
def post (form : List (String × String)) : Request :=
  { Method := "POST", Form := form, RemoteAddr := "203.0.113.7:4711" }

/-! ## Poller: what the spec counts -/

/-- A member the spec counts: not the reserved system-bot account, not a bot,
not deleted. -/
def isRegular (u : User) : Bool :=
  u.ID != "USLACKBOT" && !u.IsBot && !u.Deleted

/-- A member whose presence is reported as "active". -/
def isActive (u : User) : Bool := u.Presence == "active"

/-- Number of counted members of a list. -/
def regularCount (us : List User) : Int := ((us.filter isRegular).length : Nat)

/-- Number of counted members of a list whose presence is "active". -/
def activeCount (us : List User) : Int :=
  (((us.filter isRegular).filter isActive).length : Nat)

/-- The members of the pages that were fetched without error, each page
once, in order. -/
def fetchedUsers : List NextAnswer → List User
  | [] => []
  | (p, none) :: rest => p.Users ++ fetchedUsers rest
  | (_, some _) :: rest => fetchedUsers rest

/-- An answer of a fetch that succeeds in the end: a page, or a rate-limit
error. -/
def succeedsOrRateLimited (r : NextAnswer) : Prop :=
  r.2 = none ∨ ∃ d, r.2 = some (.rateLimited d)

/-- The members the loop body counts for the loop variables `p`, `err` when
the fetch succeeded. -/
def pendingUsers (p : UserPagination) (err : Option SlackError) : List User :=
  match err with
  | none => p.Users
  | some _ => []

/-- The events of `n` rate-limited attempts on `p`, each followed by its sleep
and the next attempt on the same `p`. -/
def retryEvents (p : UserPagination) (ds : List Nat) : List PollEvent :=
  match ds with
  | [] => []
  | d :: rest => .Sleep d :: .Next p :: retryEvents p rest

/-- The rate-limit answers of the client to the fetch that follows a fetched
page `p`: the error with its `RetryAfter`, and the pagination of `p` as it
was. -/
def rateLimitAnswers (p : UserPagination) (ds : List Nat) : List NextAnswer :=
  ds.map (fun d => (p, some (.rateLimited d)))

/-- Number of `Next` calls on `p` in a trace. -/
def attemptsOn (p : UserPagination) (tr : List PollEvent) : Nat :=
  (tr.filter (fun e => e == .Next p)).length

/-- The sleeps of a trace, in order. -/
def sleepsOf : List PollEvent → List Nat
  | [] => []
  | .Sleep d :: rest => d :: sleepsOf rest
  | _ :: rest => sleepsOf rest

/-- The events of the loop iteration entered with the loop variables `(p, err)`
of an answer: the sleep of `RetryAfter` when `err` is a rate-limit error, then
the call of `Next` on `p`. -/
def stateEvents (r : NextAnswer) : List PollEvent :=
  match r.2 with
  | some (.rateLimited d) => [.Sleep d, .Next r.1]
  | _ => [.Next r.1]

/-- The events of the iterations entered with the given answers, in order. -/
def answerEvents : List NextAnswer → List PollEvent
  | [] => []
  | r :: rest => stateEvents r ++ answerEvents rest

/-! ## Metrics registry: what is compared -/

/-- The published names whose variables are written with `Set`:
"hits_per_minute" (`main.go` 126) and the two membership totals
(`inviter.go` 157-158). -/
def setNames : List String := ["hits_per_minute", "active_user_count", "user_count"]

/-- No published counter outside `setNames` is lower in `g1` than in `g`. -/
def nonDecreasing (g g1 : Globals) : Prop :=
  ∀ name v, (name, v) ∈ registry g → name ∉ setNames →
    ∃ v1, (name, v1) ∈ registry g1 ∧ v ≤ v1

/-- The ten published counters outside `setNames`, compared one by one. -/
def fieldsLe (g g1 : Globals) : Prop :=
  g.requests ≤ g1.requests ∧ g.InviteErrors ≤ g1.InviteErrors ∧
  g.missingFirstName ≤ g1.missingFirstName ∧ g.missingLastName ≤ g1.missingLastName ∧
  g.missingEmail ≤ g1.missingEmail ∧ g.missingCoC ≤ g1.missingCoC ∧
  g.FailedCaptcha ≤ g1.FailedCaptcha ∧ g.InvalidCaptcha ≤ g1.InvalidCaptcha ∧
  g.successfulCaptcha ≤ g1.successfulCaptcha ∧ g.SuccessfulInvites ≤ g1.SuccessfulInvites

/-! ## Poller: concrete pages -/

/-- A regular member who is present. -/
def ann : User := { ID := "U01", IsBot := false, Deleted := false, Presence := "active" }

/-- A regular member who is away. -/
def bea : User := { ID := "U02", IsBot := false, Deleted := false, Presence := "away" }

/-- A deleted member. -/
def gone : User := { ID := "U03", IsBot := false, Deleted := true, Presence := "away" }

/-- A bot. -/
def helperBot : User := { ID := "U04", IsBot := true, Deleted := false, Presence := "active" }

/-- The reserved system-bot account. -/
def slackbot : User :=
  { ID := "USLACKBOT", IsBot := false, Deleted := false, Presence := "active" }

/-- The only page of a small workspace: one regular active member, one deleted
member, one bot and the system bot. -/
def mixedPage : UserPagination := { Users := [ann, gone, helperBot, slackbot], cursor := "" }

/-- First page of a two-page listing. -/
def page1 : UserPagination := { Users := [ann], cursor := "c1" }

/-- Second and last page of a two-page listing. -/
def page2 : UserPagination := { Users := [bea], cursor := "" }

/-- A team-info answer. -/
def gophers : TeamInfo := { Name := "Gophers", Domain := "gophers" }

/-- Globals left by an earlier cycle that counted 7 members, 3 of them
active. -/
def staleGlobals : Globals := { zeroGlobals with UserCount := 7, ActiveUserCount := 3 }

/-- A cycle whose fetch of the second page fails once with an error that is
neither a rate limit nor the end of the pagination (the client hands the
pagination back as it was), and succeeds when tried again. -/
def failingScript : List NextAnswer :=
  [ (page1, none), (page1, some (.other "connection reset")), (page2, none),
    (page2, some .paginationComplete) ]

/-! ## Invitation workflow -/

/-- C1: a POST request with an empty email, an empty first name, an empty last
name or a coc field other than "1" is answered with status 412 and the message
of the first missing field in the order email, first name, last name, coc; that
field's missing counter goes up by one, the other three stay, and no external
call (`Verify`, `InviteToTeam`) is made. -/
theorem handleInvite_missing_field (env : Env) (g : Globals) (r : Request)
    (hpost : r.Method = "POST")
    (hmiss : r.FormValue "email" = "" ∨ r.FormValue "fname" = "" ∨
      r.FormValue "lname" = "" ∨ r.FormValue "coc" ≠ "1") :
    (handleInvite env g r).calls = [] ∧
    (handleInvite env g r).resp.status = StatusPreconditionFailed ∧
    (r.FormValue "email" = "" →
      (handleInvite env g r).resp = httpError "Missing email" 412 ∧
      (handleInvite env g r).g.missingEmail = g.missingEmail + 1 ∧
      (handleInvite env g r).g.missingFirstName = g.missingFirstName ∧
      (handleInvite env g r).g.missingLastName = g.missingLastName ∧
      (handleInvite env g r).g.missingCoC = g.missingCoC) ∧
    (r.FormValue "email" ≠ "" → r.FormValue "fname" = "" →
      (handleInvite env g r).resp = httpError "Missing first name" 412 ∧
      (handleInvite env g r).g.missingFirstName = g.missingFirstName + 1 ∧
      (handleInvite env g r).g.missingEmail = g.missingEmail ∧
      (handleInvite env g r).g.missingLastName = g.missingLastName ∧
      (handleInvite env g r).g.missingCoC = g.missingCoC) ∧
    (r.FormValue "email" ≠ "" → r.FormValue "fname" ≠ "" → r.FormValue "lname" = "" →
      (handleInvite env g r).resp = httpError "Missing last name" 412 ∧
      (handleInvite env g r).g.missingLastName = g.missingLastName + 1 ∧
      (handleInvite env g r).g.missingEmail = g.missingEmail ∧
      (handleInvite env g r).g.missingFirstName = g.missingFirstName ∧
      (handleInvite env g r).g.missingCoC = g.missingCoC) ∧
    (r.FormValue "email" ≠ "" → r.FormValue "fname" ≠ "" → r.FormValue "lname" ≠ "" →
      r.FormValue "coc" ≠ "1" →
      (handleInvite env g r).resp =
        httpError "You need to accept the code of conduct" 412 ∧
      (handleInvite env g r).g.missingCoC = g.missingCoC + 1 ∧
      (handleInvite env g r).g.missingEmail = g.missingEmail ∧
      (handleInvite env g r).g.missingFirstName = g.missingFirstName ∧
      (handleInvite env g r).g.missingLastName = g.missingLastName) := by
  by_cases he : r.FormValue "email" = ""
  · simp [handleInvite, hpost, he, httpError, StatusPreconditionFailed]
  · by_cases hf : r.FormValue "fname" = ""
    · simp [handleInvite, hpost, he, hf, httpError, StatusPreconditionFailed]
    · by_cases hl : r.FormValue "lname" = ""
      · simp [handleInvite, hpost, he, hf, hl, httpError, StatusPreconditionFailed]
      · have hc : r.FormValue "coc" ≠ "1" := by
          rcases hmiss with h | h | h | h
          · exact absurd h he
          · exact absurd h hf
          · exact absurd h hl
          · exact h
        simp [handleInvite, hpost, he, hf, hl, hc, httpError, StatusPreconditionFailed]

/-- Witness of C1: a POST whose form has an email and a first name but no last
name. -/
theorem handleInvite_missing_field_witness :
    (handleInvite (envWith true) zeroGlobals
        (post [("email", "a@b.c"), ("fname", "Ann"), ("coc", "1")])).calls = [] ∧
    (handleInvite (envWith true) zeroGlobals
        (post [("email", "a@b.c"), ("fname", "Ann"), ("coc", "1")])).resp
      = httpError "Missing last name" 412 ∧
    (handleInvite (envWith true) zeroGlobals
        (post [("email", "a@b.c"), ("fname", "Ann"), ("coc", "1")])).g.missingLastName = 1 :=
  have h := handleInvite_missing_field (envWith true) zeroGlobals
    (post [("email", "a@b.c"), ("fname", "Ann"), ("coc", "1")]) rfl
    (Or.inr (Or.inr (Or.inl (by decide))))
  ⟨h.1, (h.2.2.2.2.1 (by decide) (by decide) (by decide)).1,
    (h.2.2.2.2.1 (by decide) (by decide) (by decide)).2.1⟩

/-- C2: when `Verify` completes without error and reports `valid = false`,
`Invite` returns a non-nil error, makes no `InviteToTeam` call, raises
`InvalidCaptcha` by one and leaves `FailedCaptcha`, `InviteErrors` and
`SuccessfulInvites` alone; two such calls one after the other raise
`InvalidCaptcha` by two. -/
theorem Invite_invalid_captcha (env env2 : Env) (g : Globals)
    (fname lname email captchaResponse remoteIP : String)
    (fname2 lname2 email2 captchaResponse2 remoteIP2 : String)
    (hv : env.Verify captchaResponse remoteIP = (false, none))
    (hv2 : env2.Verify captchaResponse2 remoteIP2 = (false, none)) :
    (Invite env g fname lname email captchaResponse remoteIP).err ≠ none ∧
    (∀ d f l e, ExtCall.InviteToTeam d f l e ∉
      (Invite env g fname lname email captchaResponse remoteIP).calls) ∧
    (Invite env g fname lname email captchaResponse remoteIP).g.InvalidCaptcha
      = g.InvalidCaptcha + 1 ∧
    (Invite env g fname lname email captchaResponse remoteIP).g.FailedCaptcha
      = g.FailedCaptcha ∧
    (Invite env g fname lname email captchaResponse remoteIP).g.InviteErrors
      = g.InviteErrors ∧
    (Invite env g fname lname email captchaResponse remoteIP).g.SuccessfulInvites
      = g.SuccessfulInvites ∧
    (Invite env2 (Invite env g fname lname email captchaResponse remoteIP).g
        fname2 lname2 email2 captchaResponse2 remoteIP2).g.InvalidCaptcha
      = g.InvalidCaptcha + 2 := by
  simp [Invite, hv, hv2]
  ring

/-- Witness of C2: two rejected captcha answers in a row. -/
theorem Invite_invalid_captcha_witness :
    (Invite (envWith false) zeroGlobals "Ann" "Lee" "a@b.c" "tok" "203.0.113.7").err
      = some .invalidRecaptcha ∧
    (Invite (envWith false)
        (Invite (envWith false) zeroGlobals "Ann" "Lee" "a@b.c" "tok" "203.0.113.7").g
        "Ann" "Lee" "a@b.c" "tok" "203.0.113.7").g.InvalidCaptcha = 2 :=
  ⟨by decide,
   (Invite_invalid_captcha (envWith false) (envWith false) zeroGlobals
      "Ann" "Lee" "a@b.c" "tok" "203.0.113.7" "Ann" "Lee" "a@b.c" "tok" "203.0.113.7"
      rfl rfl).2.2.2.2.2.2⟩

/-- C3: when `Verify` answers valid without error and `InviteToTeam` returns no
error, `Invite` returns nil, its external calls are the verification followed by
exactly one `InviteToTeam` with the cached team domain and the given first name,
last name and email, `SuccessfulInvites` goes up by one and `InviteErrors`,
`FailedCaptcha` and `InvalidCaptcha` stay. -/
theorem Invite_success (env : Env) (g : Globals)
    (fname lname email captchaResponse remoteIP : String)
    (hv : env.Verify captchaResponse remoteIP = (true, none))
    (hi : env.InviteToTeam g.ourTeam.Domain fname lname email = none) :
    (Invite env g fname lname email captchaResponse remoteIP).err = none ∧
    (Invite env g fname lname email captchaResponse remoteIP).calls
      = [.Verify captchaResponse remoteIP,
         .InviteToTeam g.ourTeam.Domain fname lname email] ∧
    (Invite env g fname lname email captchaResponse remoteIP).g.SuccessfulInvites
      = g.SuccessfulInvites + 1 ∧
    (Invite env g fname lname email captchaResponse remoteIP).g.InviteErrors
      = g.InviteErrors ∧
    (Invite env g fname lname email captchaResponse remoteIP).g.FailedCaptcha
      = g.FailedCaptcha ∧
    (Invite env g fname lname email captchaResponse remoteIP).g.InvalidCaptcha
      = g.InvalidCaptcha := by
  simp [Invite, hv, hi]

/-- Witness of C3: one accepted invitation into the team "gophers". -/
theorem Invite_success_witness :
    (Invite (envWith true) zeroGlobals "Ann" "Lee" "a@b.c" "tok" "203.0.113.7").calls
      = [.Verify "tok" "203.0.113.7", .InviteToTeam "gophers" "Ann" "Lee" "a@b.c"] ∧
    (Invite (envWith true) zeroGlobals "Ann" "Lee" "a@b.c" "tok" "203.0.113.7").g.SuccessfulInvites
      = 1 :=
  have h := Invite_success (envWith true) zeroGlobals "Ann" "Lee" "a@b.c" "tok"
    "203.0.113.7" rfl rfl
  ⟨h.2.1, h.2.2.1⟩

/-- C9, the code at a failing input: a POST without an email is rejected as a
missing precondition before any verification, and `successfulCaptcha` has gone
from 0 to 1 all the same; likewise when the captcha answer is invalid. -/
theorem handleInvite_successfulCaptcha_unconditional :
    (handleInvite (envWith true) zeroGlobals (post [])).resp
      = httpError "Missing email" 412 ∧
    (handleInvite (envWith true) zeroGlobals (post [])).calls = [] ∧
    (handleInvite (envWith true) zeroGlobals (post [])).g.successfulCaptcha = 1 ∧
    (handleInvite (envWith false) zeroGlobals
      (post [("email", "a@b.c"), ("fname", "Ann"), ("lname", "Lee"),
        ("coc", "1")])).resp = httpError "Invalid recaptcha" 500 ∧
    (handleInvite (envWith false) zeroGlobals
      (post [("email", "a@b.c"), ("fname", "Ann"), ("lname", "Lee"),
        ("coc", "1")])).g.successfulCaptcha = 1 := by
  decide

/-- C10: the badge has the subject "slack"; its status is the decimal
`UserCount` alone when `ActiveUserCount` is 0 and
`ActiveUserCount/UserCount` when `ActiveUserCount` is positive. -/
theorem RenderBadge_status (g : Globals) :
    (RenderBadge g).subject = "slack" ∧
    (g.ActiveUserCount = 0 → (RenderBadge g).status = IntString g.UserCount) ∧
    (g.ActiveUserCount > 0 →
      (RenderBadge g).status
        = IntString g.ActiveUserCount ++ "/" ++ IntString g.UserCount) := by
  refine ⟨rfl, ?_, ?_⟩
  · intro h
    simp [RenderBadge, h]
  · intro h
    simp [RenderBadge, h]

/-- Witness of C10: 0 active of 42 renders "42", 7 active of 42 renders
"7/42". -/
theorem RenderBadge_status_witness :
    (RenderBadge { zeroGlobals with UserCount := 42 }).status = "42" ∧
    (RenderBadge { zeroGlobals with UserCount := 42, ActiveUserCount := 7 }).status
      = "7/42" :=
  ⟨((RenderBadge_status { zeroGlobals with UserCount := 42 }).2.1 rfl).trans (by decide),
   ((RenderBadge_status { zeroGlobals with UserCount := 42, ActiveUserCount := 7 }).2.2
      (by decide)).trans (by decide)⟩

/-! ## Poller: lemmas on the loop -/

theorem countUser_eq (u a : Int) (x : User) :
    countUser (u, a) x
      = (u + regularCount [x], a + activeCount [x]) := by
  unfold countUser regularCount activeCount isRegular isActive
  by_cases h1 : x.ID = "USLACKBOT" <;> by_cases h2 : x.IsBot = true <;>
    by_cases h3 : x.Deleted = true <;> by_cases h4 : x.Presence = "active" <;>
    simp [h1, h2, h3, h4, List.filter_cons]

theorem regularCount_cons (x : User) (us : List User) :
    regularCount (x :: us) = regularCount [x] + regularCount us := by
  unfold regularCount
  by_cases h : isRegular x = true
  · simp [List.filter_cons, h]
    omega
  · simp [List.filter_cons, h]

theorem activeCount_cons (x : User) (us : List User) :
    activeCount (x :: us) = activeCount [x] + activeCount us := by
  unfold activeCount
  by_cases h : isRegular x = true <;> by_cases h2 : isActive x = true <;>
    simp [List.filter_cons, h, h2]
  omega

theorem regularCount_append (us vs : List User) :
    regularCount (us ++ vs) = regularCount us + regularCount vs := by
  unfold regularCount
  simp [List.filter_append]

theorem activeCount_append (us vs : List User) :
    activeCount (us ++ vs) = activeCount us + activeCount vs := by
  unfold activeCount
  simp [List.filter_append]

theorem regularCount_nonneg (us : List User) : 0 ≤ regularCount us := by
  unfold regularCount
  exact Int.natCast_nonneg _

theorem activeCount_nonneg (us : List User) : 0 ≤ activeCount us := by
  unfold activeCount
  exact Int.natCast_nonneg _

theorem activeCount_le_regularCount (us : List User) :
    activeCount us ≤ regularCount us := by
  unfold activeCount regularCount
  exact Int.ofNat_le.mpr (List.length_filter_le _ _)

theorem countUsers_eq (us : List User) (u a : Int) :
    countUsers us (u, a) = (u + regularCount us, a + activeCount us) := by
  induction us generalizing u a with
  | nil => simp [countUsers, regularCount, activeCount]
  | cons x xs ih =>
    have hx : countUsers (x :: xs) (u, a) = countUsers xs (countUser (u, a) x) := rfl
    rw [hx, countUser_eq, ih, regularCount_cons x xs, activeCount_cons x xs]
    simp [add_assoc]

theorem pagingLoop_done (script : List NextAnswer) (p : UserPagination)
    (u a : Int) (tr : List PollEvent) :
    pagingLoop script p (some .paginationComplete) u a tr
      = some { p := p, err := some .paginationComplete, uCount := u, aCount := a,
               trace := tr } := by
  unfold pagingLoop
  simp [Done]

theorem pagingLoop_page (p1 : UserPagination) (err1 : Option SlackError)
    (rest : List NextAnswer) (p : UserPagination) (u a : Int) (tr : List PollEvent) :
    pagingLoop ((p1, err1) :: rest) p none u a tr
      = pagingLoop rest p1 err1 (u + regularCount p.Users) (a + activeCount p.Users)
          (tr ++ [.Next p]) := by
  rw [pagingLoop]
  simp [Done, countUsers_eq]
  intro d h
  cases h

theorem pagingLoop_other (p1 : UserPagination) (err1 : Option SlackError)
    (rest : List NextAnswer) (p : UserPagination) (msg : String) (u a : Int)
    (tr : List PollEvent) :
    pagingLoop ((p1, err1) :: rest) p (some (.other msg)) u a tr
      = pagingLoop rest p1 err1 (u + regularCount p.Users) (a + activeCount p.Users)
          (tr ++ [.Next p]) := by
  rw [pagingLoop]
  simp [Done, countUsers_eq]
  intro d h
  cases h

theorem pagingLoop_rateLimited (p1 : UserPagination) (err1 : Option SlackError)
    (rest : List NextAnswer) (p : UserPagination) (d : Nat) (u a : Int)
    (tr : List PollEvent) :
    pagingLoop ((p1, err1) :: rest) p (some (.rateLimited d)) u a tr
      = pagingLoop rest p1 err1 u a (tr ++ [.Sleep d, .Next p]) := by
  rw [pagingLoop]
  simp [Done]

theorem pagingLoop_retry (ds : List Nat) (q : UserPagination) (err1 : Option SlackError)
    (rest : List NextAnswer) (p : UserPagination) (d0 : Nat) (u a : Int)
    (tr : List PollEvent) :
    pagingLoop (rateLimitAnswers p ds ++ (q, err1) :: rest) p (some (.rateLimited d0)) u a tr
      = pagingLoop rest q err1 u a (tr ++ retryEvents p (d0 :: ds)) := by
  induction ds generalizing d0 tr with
  | nil =>
    simp [rateLimitAnswers, pagingLoop_rateLimited, retryEvents]
  | cons d ds ih =>
    have h : rateLimitAnswers p (d :: ds) = (p, some (.rateLimited d)) :: rateLimitAnswers p ds :=
      rfl
    rw [h, List.cons_append, pagingLoop_rateLimited, ih]
    simp [retryEvents]

theorem attemptsOn_retryEvents (p : UserPagination) (ds : List Nat) :
    attemptsOn p (retryEvents p ds) = ds.length := by
  induction ds with
  | nil => rfl
  | cons d ds ih =>
    unfold attemptsOn at ih
    simp [attemptsOn, retryEvents, List.filter_cons, ih]

theorem sleepsOf_retryEvents (p : UserPagination) (ds : List Nat) :
    sleepsOf (retryEvents p ds) = ds := by
  induction ds with
  | nil => rfl
  | cons d ds ih => simp [retryEvents, sleepsOf, ih]

theorem pagingLoop_succeeds (pEnd : UserPagination) (rest : List NextAnswer)
    (pre : List NextAnswer) (p : UserPagination) (err : Option SlackError) (u a : Int)
    (tr : List PollEvent)
    (herr : err = none ∨ ∃ d, err = some (.rateLimited d))
    (hpre : ∀ r ∈ pre, succeedsOrRateLimited r) :
    ∃ tr1, pagingLoop (pre ++ (pEnd, some .paginationComplete) :: rest) p err u a tr
      = some { p := pEnd, err := some .paginationComplete,
               uCount := u + regularCount (pendingUsers p err ++ fetchedUsers pre),
               aCount := a + activeCount (pendingUsers p err ++ fetchedUsers pre),
               trace := tr1 } := by
  induction pre generalizing p err u a tr with
  | nil =>
    rcases herr with rfl | ⟨d, rfl⟩
    · refine ⟨tr ++ [.Next p], ?_⟩
      simp [pagingLoop_page, pagingLoop_done, pendingUsers, fetchedUsers]
    · refine ⟨tr ++ [.Sleep d, .Next p], ?_⟩
      simp [pagingLoop_rateLimited, pagingLoop_done, pendingUsers, fetchedUsers,
        regularCount, activeCount]
  | cons r pre ih =>
    obtain ⟨p1, err1⟩ := r
    have h1 : err1 = none ∨ ∃ d, err1 = some (.rateLimited d) :=
      hpre (p1, err1) (List.mem_cons_self _ _)
    have hrest : ∀ r ∈ pre, succeedsOrRateLimited r :=
      fun r hr => hpre r (List.mem_cons_of_mem _ hr)
    have hfetch : regularCount (fetchedUsers ((p1, err1) :: pre))
          = regularCount (pendingUsers p1 err1 ++ fetchedUsers pre) ∧
        activeCount (fetchedUsers ((p1, err1) :: pre))
          = activeCount (pendingUsers p1 err1 ++ fetchedUsers pre) := by
      rcases h1 with rfl | ⟨d, rfl⟩ <;> simp [fetchedUsers, pendingUsers]
    rcases herr with rfl | ⟨d, rfl⟩
    · obtain ⟨tr1, h⟩ := ih p1 err1 (u + regularCount p.Users) (a + activeCount p.Users)
        (tr ++ [.Next p]) h1 hrest
      refine ⟨tr1, ?_⟩
      rw [List.cons_append, pagingLoop_page, h]
      simp only [pendingUsers, regularCount_append, activeCount_append, hfetch.1, hfetch.2,
        add_assoc]
    · obtain ⟨tr1, h⟩ := ih p1 err1 u a (tr ++ [.Sleep d, .Next p]) h1 hrest
      refine ⟨tr1, ?_⟩
      rw [List.cons_append, pagingLoop_rateLimited, h]
      simp only [pendingUsers, List.nil_append, regularCount_append, activeCount_append,
        hfetch.1, hfetch.2]

theorem answerEvents_append (xs ys : List NextAnswer) :
    answerEvents (xs ++ ys) = answerEvents xs ++ answerEvents ys := by
  induction xs with
  | nil => rfl
  | cons x xs ih => simp [answerEvents, ih]

theorem answerEvents_rateLimitAnswers (p : UserPagination) (ds : List Nat) :
    answerEvents (rateLimitAnswers p ds) = retryEvents p ds := by
  induction ds with
  | nil => rfl
  | cons d ds ih =>
    have h : rateLimitAnswers p (d :: ds)
        = (p, some (.rateLimited d)) :: rateLimitAnswers p ds := rfl
    rw [h]
    simp [answerEvents, stateEvents, retryEvents, ih]

theorem fetchedUsers_append (xs ys : List NextAnswer) :
    fetchedUsers (xs ++ ys) = fetchedUsers xs ++ fetchedUsers ys := by
  induction xs with
  | nil => rfl
  | cons x xs ih =>
    obtain ⟨p1, err1⟩ := x
    cases err1 <;> simp [fetchedUsers, ih]

theorem fetchedUsers_rateLimitAnswers (p : UserPagination) (ds : List Nat) :
    fetchedUsers (rateLimitAnswers p ds) = [] := by
  induction ds with
  | nil => rfl
  | cons d ds ih =>
    have h : rateLimitAnswers p (d :: ds)
        = (p, some (.rateLimited d)) :: rateLimitAnswers p ds := rfl
    rw [h]
    simp [fetchedUsers, ih]

theorem pagingLoop_succeeds_trace (pEnd : UserPagination) (rest : List NextAnswer)
    (pre : List NextAnswer) (p : UserPagination) (err : Option SlackError) (u a : Int)
    (tr : List PollEvent)
    (herr : err = none ∨ ∃ d, err = some (.rateLimited d))
    (hpre : ∀ r ∈ pre, succeedsOrRateLimited r) :
    pagingLoop (pre ++ (pEnd, some .paginationComplete) :: rest) p err u a tr
      = some { p := pEnd, err := some .paginationComplete,
               uCount := u + regularCount (pendingUsers p err ++ fetchedUsers pre),
               aCount := a + activeCount (pendingUsers p err ++ fetchedUsers pre),
               trace := tr ++ answerEvents ((p, err) :: pre) } := by
  induction pre generalizing p err u a tr with
  | nil =>
    rcases herr with rfl | ⟨d, rfl⟩
    · simp [pagingLoop_page, pagingLoop_done, pendingUsers, fetchedUsers, answerEvents,
        stateEvents]
    · simp [pagingLoop_rateLimited, pagingLoop_done, pendingUsers, fetchedUsers,
        regularCount, activeCount, answerEvents, stateEvents]
  | cons r pre ih =>
    obtain ⟨p1, err1⟩ := r
    have h1 : err1 = none ∨ ∃ d, err1 = some (.rateLimited d) :=
      hpre (p1, err1) (List.mem_cons_self _ _)
    have hrest : ∀ r ∈ pre, succeedsOrRateLimited r :=
      fun r hr => hpre r (List.mem_cons_of_mem _ hr)
    have hfetch : regularCount (fetchedUsers ((p1, err1) :: pre))
          = regularCount (pendingUsers p1 err1 ++ fetchedUsers pre) ∧
        activeCount (fetchedUsers ((p1, err1) :: pre))
          = activeCount (pendingUsers p1 err1 ++ fetchedUsers pre) := by
      rcases h1 with rfl | ⟨d, rfl⟩ <;> simp [fetchedUsers, pendingUsers]
    rcases herr with rfl | ⟨d, rfl⟩
    · rw [List.cons_append, pagingLoop_page, ih p1 err1 _ _ _ h1 hrest]
      simp only [pendingUsers, regularCount_append, activeCount_append, hfetch.1, hfetch.2,
        add_assoc]
      simp [answerEvents, stateEvents]
    · rw [List.cons_append, pagingLoop_rateLimited, ih p1 err1 _ _ _ h1 hrest]
      simp only [pendingUsers, List.nil_append, regularCount_append, activeCount_append,
        hfetch.1, hfetch.2]
      simp [answerEvents, stateEvents]

theorem pagingLoop_exit (script : List NextAnswer) (p : UserPagination)
    (err : Option SlackError) (u a : Int) (tr : List PollEvent) (l : LoopExit)
    (h : pagingLoop script p err u a tr = some l) :
    l.err = some .paginationComplete := by
  induction script generalizing p err u a tr with
  | nil =>
    rcases err with _ | e
    · rw [pagingLoop] at h
      simp [Done] at h
      intro d hd
      cases hd
    · cases e with
      | paginationComplete =>
        rw [pagingLoop_done] at h
        cases h
        rfl
      | rateLimited d =>
        rw [pagingLoop] at h
        simp [Done] at h
      | other msg =>
        rw [pagingLoop] at h
        simp [Done] at h
        intro d hd
        cases hd
  | cons r script ih =>
    obtain ⟨p1, err1⟩ := r
    rcases err with _ | e
    · rw [pagingLoop_page] at h
      exact ih _ _ _ _ _ h
    · cases e with
      | paginationComplete =>
        rw [pagingLoop_done] at h
        cases h
        rfl
      | rateLimited d =>
        rw [pagingLoop_rateLimited] at h
        exact ih _ _ _ _ _ h
      | other msg =>
        rw [pagingLoop_other] at h
        exact ih _ _ _ _ _ h

/-! ## Poller: theorems -/

/-- C5: in a poll cycle whose page fetches all succeed in the end (every answer
before the end of the pagination is a page or a rate-limit error),
`UpdateFromSlack` returns, `UserCount` is the number of members over the fetched
pages (each page once) that are not USLACKBOT, not bots and not deleted,
`ActiveUserCount` is the number of those whose presence is "active", and
`ActiveUserCount ≤ UserCount`. -/
theorem UpdateFromSlack_counts (pre : List NextAnswer) (pEnd : UserPagination)
    (rest : List NextAnswer) (teamInfo : Except String TeamInfo) (g : Globals)
    (hpre : ∀ r ∈ pre, succeedsOrRateLimited r) :
    ∃ res, UpdateFromSlack (pre ++ (pEnd, some .paginationComplete) :: rest) teamInfo g
        = some res ∧
      res.g.UserCount = regularCount (fetchedUsers pre) ∧
      res.g.ActiveUserCount = activeCount (fetchedUsers pre) ∧
      res.g.ActiveUserCount ≤ res.g.UserCount := by
  obtain ⟨tr1, h⟩ := pagingLoop_succeeds pEnd rest pre GetUsersPaginated none 0 0 []
    (Or.inl rfl) hpre
  have hle := activeCount_le_regularCount (fetchedUsers pre)
  cases teamInfo with
  | error e =>
    refine ⟨_, by simp only [UpdateFromSlack, h]; simp [Done]; rfl, ?_, ?_, ?_⟩ <;>
      simp [pendingUsers, GetUsersPaginated, hle]
  | ok st =>
    refine ⟨_, by simp only [UpdateFromSlack, h]; simp [Done]; rfl, ?_, ?_, ?_⟩ <;>
      simp [pendingUsers, GetUsersPaginated, hle]

/-- Witness of C5: a single page with one regular active member, one deleted
member, one bot and USLACKBOT gives `UserCount = 1` and `ActiveUserCount = 1`. -/
theorem UpdateFromSlack_counts_witness :
    (UpdateFromSlack [(mixedPage, none), (mixedPage, some .paginationComplete)]
        (.ok gophers) staleGlobals).map (fun r => (r.g.UserCount, r.g.ActiveUserCount))
      = some (1, 1) := by
  obtain ⟨res, h, hu, ha, _⟩ := UpdateFromSlack_counts [(mixedPage, none)] mixedPage []
    (.ok gophers) staleGlobals (by simp [succeedsOrRateLimited])
  have h1 : regularCount (fetchedUsers [(mixedPage, none)]) = 1 := by decide
  have h2 : activeCount (fetchedUsers [(mixedPage, none)]) = 1 := by decide
  have h3 : UpdateFromSlack [(mixedPage, none), (mixedPage, some .paginationComplete)]
      (.ok gophers) staleGlobals = some res := h
  rw [h3, Option.map_some', hu, ha, h1, h2]

/-- C6: in a poll cycle whose page fetches all succeed in the end, let `p` be a
fetched page whose following fetch is answered `n` times by a rate-limit error
(durations `ds`, the pagination handed back as it was) and then by the page
`q`.  The cycle returns; between the events of the fetches before and after, its
trace holds exactly `n + 1` calls of `Next` on the same `p`, each rate-limited
one followed by the sleep of its `RetryAfter`; and `UserCount` and
`ActiveUserCount` count the members of `p`, of `q` and of the other fetched
pages once each: the rate-limited attempts add nothing. -/
theorem UpdateFromSlack_rate_limit_retry (pre post : List NextAnswer)
    (p q pEnd : UserPagination) (ds : List Nat) (rest : List NextAnswer)
    (teamInfo : Except String TeamInfo) (g : Globals)
    (hpre : ∀ r ∈ pre, succeedsOrRateLimited r)
    (hpost : ∀ r ∈ post, succeedsOrRateLimited r) :
    (UpdateFromSlack
        ((pre ++ (p, none) :: (rateLimitAnswers p ds ++ (q, none) :: post))
          ++ (pEnd, some .paginationComplete) :: rest)
        teamInfo g).map (fun r => (r.trace, r.g.UserCount, r.g.ActiveUserCount))
      = some (answerEvents ((GetUsersPaginated, none) :: pre)
                ++ (.Next p :: retryEvents p ds)
                ++ (.Next q :: answerEvents post) ++ [.GetTeamInfo],
              regularCount (fetchedUsers pre) + regularCount p.Users
                + regularCount q.Users + regularCount (fetchedUsers post),
              activeCount (fetchedUsers pre) + activeCount p.Users
                + activeCount q.Users + activeCount (fetchedUsers post)) ∧
    attemptsOn p (.Next p :: retryEvents p ds) = ds.length + 1 ∧
    sleepsOf (.Next p :: retryEvents p ds) = ds := by
  have hgood : ∀ r ∈ pre ++ (p, none) :: (rateLimitAnswers p ds ++ (q, none) :: post),
      succeedsOrRateLimited r := by
    intro r hr
    rcases List.mem_append.mp hr with h | h
    · exact hpre r h
    · rcases List.mem_cons.mp h with h | h
      · exact Or.inl (by rw [h])
      · rcases List.mem_append.mp h with h | h
        · obtain ⟨d, _, hd⟩ := List.mem_map.mp h
          exact Or.inr ⟨d, by rw [← hd]⟩
        · rcases List.mem_cons.mp h with h | h
          · exact Or.inl (by rw [h])
          · exact hpost r h
  have hloop := pagingLoop_succeeds_trace pEnd rest _ GetUsersPaginated none 0 0 []
    (Or.inl rfl) hgood
  refine ⟨?_, ?_, ?_⟩
  · have hev : answerEvents ((GetUsersPaginated, none)
          :: (pre ++ (p, none) :: (rateLimitAnswers p ds ++ (q, none) :: post)))
        = answerEvents ((GetUsersPaginated, none) :: pre)
            ++ (.Next p :: retryEvents p ds) ++ (.Next q :: answerEvents post) := by
      rw [← List.cons_append, answerEvents_append]
      simp [answerEvents, stateEvents, answerEvents_append, answerEvents_rateLimitAnswers]
    have hfu : fetchedUsers (pre ++ (p, none) :: (rateLimitAnswers p ds ++ (q, none) :: post))
        = fetchedUsers pre ++ (p.Users ++ (q.Users ++ fetchedUsers post)) := by
      rw [fetchedUsers_append]
      simp [fetchedUsers, fetchedUsers_append, fetchedUsers_rateLimitAnswers]
    rw [hev, hfu] at hloop
    rw [UpdateFromSlack, hloop]
    cases teamInfo <;>
      simp [Done, pendingUsers, regularCount_append, activeCount_append, add_assoc,
        show GetUsersPaginated.Users = [] from rfl]
  · have h := attemptsOn_retryEvents p ds
    unfold attemptsOn at h ⊢
    simp [List.filter_cons, h]
  · simp [sleepsOf, sleepsOf_retryEvents]

/-- Witness of C6 at `n = 3`: after the first page (one active regular member)
the fetch of the second page is rate limited three times, with `RetryAfter` 5, 10
and 20 seconds, and then succeeds: four calls of `Next` on the first page's
pagination, three sleeps, and the totals 2 and 1 count the first page once. -/
theorem UpdateFromSlack_rate_limit_retry_three :
    (UpdateFromSlack
        [ (page1, none),
          (page1, some (.rateLimited 5000000000)),
          (page1, some (.rateLimited 10000000000)),
          (page1, some (.rateLimited 20000000000)),
          (page2, none), (page2, some .paginationComplete) ]
        (.ok gophers) staleGlobals).map (fun r => (r.trace, r.g.UserCount, r.g.ActiveUserCount))
      = some ([ .Next GetUsersPaginated,
                .Next page1, .Sleep 5000000000,
                .Next page1, .Sleep 10000000000,
                .Next page1, .Sleep 20000000000,
                .Next page1, .Next page2, .GetTeamInfo ], 2, 1) :=
  (UpdateFromSlack_rate_limit_retry [] [] page1 page2 page2
      [5000000000, 10000000000, 20000000000] [] (.ok gophers) staleGlobals
      (by simp) (by simp)).1.trans (by decide)

/-- C7: in a poll cycle whose paging completes successfully, when `GetTeamInfo`
returns an error the globals differ from those before the cycle only in
`UserCount` and `ActiveUserCount`, which hold the new totals (`ourTeam` is as it
was), and the returned delay is one minute, not one hour; when `GetTeamInfo`
succeeds, `ourTeam` is also updated with the answer and the delay is one hour. -/
theorem UpdateFromSlack_team_info (pre : List NextAnswer) (pEnd : UserPagination)
    (rest : List NextAnswer) (g : Globals)
    (hpre : ∀ r ∈ pre, succeedsOrRateLimited r) :
    (∀ e, (UpdateFromSlack (pre ++ (pEnd, some .paginationComplete) :: rest)
        (.error e) g).map (fun r => (r.g, r.delay))
      = some ({ g with UserCount := regularCount (fetchedUsers pre),
                       ActiveUserCount := activeCount (fetchedUsers pre) }, Minute)) ∧
    (∀ st, (UpdateFromSlack (pre ++ (pEnd, some .paginationComplete) :: rest)
        (.ok st) g).map (fun r => (r.g, r.delay))
      = some ({ g with UserCount := regularCount (fetchedUsers pre),
                       ActiveUserCount := activeCount (fetchedUsers pre),
                       ourTeam := g.ourTeam.Update st }, Hour)) ∧
    Minute ≠ Hour := by
  obtain ⟨tr1, h⟩ := pagingLoop_succeeds pEnd rest pre GetUsersPaginated none 0 0 []
    (Or.inl rfl) hpre
  refine ⟨?_, ?_, by decide⟩
  · intro e
    rw [UpdateFromSlack, h]
    simp [Done, pendingUsers, GetUsersPaginated]
  · intro st
    rw [UpdateFromSlack, h]
    simp [Done, pendingUsers, GetUsersPaginated]

/-- Witness of C7: after two pages with two regular members, one of them
active, a failing `GetTeamInfo` leaves the team "Gophers" in place and gives one
minute; a successful one installs the new team and gives one hour. -/
theorem UpdateFromSlack_team_info_witness :
    (UpdateFromSlack [(page1, none), (page2, none), (page2, some .paginationComplete)]
        (.error "timeout") staleGlobals).map (fun r => (r.g, r.delay))
      = some ({ staleGlobals with UserCount := 2, ActiveUserCount := 1 }, 60000000000) ∧
    (UpdateFromSlack [(page1, none), (page2, none), (page2, some .paginationComplete)]
        (.ok { Name := "Rustaceans", Domain := "rust" }) staleGlobals).map
          (fun r => (r.g, r.delay))
      = some ({ staleGlobals with
                UserCount := 2, ActiveUserCount := 1, ourTeam := ⟨"Rustaceans", "rust"⟩ },
              3600000000000) :=
  have h := UpdateFromSlack_team_info [(page1, none), (page2, none)] page2 [] staleGlobals
    (by simp [succeedsOrRateLimited])
  ⟨(h.1 "timeout").trans (by decide),
   (h.2.1 { Name := "Rustaceans", Domain := "rust" }).trans (by decide)⟩

/-- Every poll cycle that returns has called `GetTeamInfo` as its last event: the
`return time.Minute` of `inviter.go` 159-162 is never taken, because the loop
only ends on the end-of-pagination value. -/
theorem UpdateFromSlack_reaches_team_info (script : List NextAnswer)
    (teamInfo : Except String TeamInfo) (g : Globals) (res : PollResult)
    (h : UpdateFromSlack script teamInfo g = some res) :
    res.trace.getLast? = some .GetTeamInfo := by
  unfold UpdateFromSlack at h
  cases hl : pagingLoop script GetUsersPaginated none 0 0 [] with
  | none => simp [hl] at h
  | some l =>
    have hd := pagingLoop_exit _ _ _ _ _ _ l hl
    simp only [hl, hd, Done] at h
    cases teamInfo with
    | error e =>
      simp at h
      subst h
      simp
    | ok st =>
      simp at h
      subst h
      simp

/-- C4, the code at a failing input: the second page fetch of `failingScript`
returns an error that is neither a rate limit nor the end of the pagination.
The cycle does not abort: `Next` is called again twice after the failed attempt
and `GetTeamInfo` is called; `UserCount` and `ActiveUserCount` go from 7 and 3
to 3 and 2 (the first page is counted a second time); the returned delay is one
hour, not one minute. -/
theorem UpdateFromSlack_error_does_not_abort :
    UpdateFromSlack failingScript (.ok gophers) staleGlobals
      = some { g := { staleGlobals with UserCount := 3, ActiveUserCount := 2 },
               delay := Hour,
               trace := [.Next GetUsersPaginated, .Next page1, .Next page1, .Next page2,
                         .GetTeamInfo] } ∧
    staleGlobals.UserCount = 7 ∧ staleGlobals.ActiveUserCount = 3 ∧ Hour ≠ Minute := by
  decide

/-! ## Metrics registry: theorems -/

theorem nonDecreasing_of_fields (g g1 : Globals)
    (h1 : g.requests ≤ g1.requests) (h2 : g.InviteErrors ≤ g1.InviteErrors)
    (h3 : g.missingFirstName ≤ g1.missingFirstName)
    (h4 : g.missingLastName ≤ g1.missingLastName)
    (h5 : g.missingEmail ≤ g1.missingEmail) (h6 : g.missingCoC ≤ g1.missingCoC)
    (h7 : g.FailedCaptcha ≤ g1.FailedCaptcha) (h8 : g.InvalidCaptcha ≤ g1.InvalidCaptcha)
    (h9 : g.successfulCaptcha ≤ g1.successfulCaptcha)
    (h10 : g.SuccessfulInvites ≤ g1.SuccessfulInvites) :
    nonDecreasing g g1 := by
  intro name v hmem hset
  simp only [registry, List.mem_cons, Prod.mk.injEq, List.mem_singleton, List.mem_nil_iff,
    or_false] at hmem
  rcases hmem with e0 | e1 | e2 | e3 | e4 | e5 | e6 | e7 | e8 | e9 | e10 | e11 | e12
  all_goals
    obtain ⟨hname, hval⟩ := ‹name = _ ∧ v = _›
    subst hname
    subst hval
  · exact absurd (by simp [setNames]) hset
  · exact ⟨_, by simp [registry], h1⟩
  · exact ⟨_, by simp [registry], h2⟩
  · exact ⟨_, by simp [registry], h3⟩
  · exact ⟨_, by simp [registry], h4⟩
  · exact ⟨_, by simp [registry], h5⟩
  · exact ⟨_, by simp [registry], h6⟩
  · exact ⟨_, by simp [registry], h7⟩
  · exact ⟨_, by simp [registry], h8⟩
  · exact ⟨_, by simp [registry], h9⟩
  · exact ⟨_, by simp [registry], h10⟩
  · exact absurd (by simp [setNames]) hset
  · exact absurd (by simp [setNames]) hset

theorem nonDecreasing_of_fieldsLe (g g1 : Globals) (h : fieldsLe g g1) :
    nonDecreasing g g1 :=
  nonDecreasing_of_fields g g1 h.1 h.2.1 h.2.2.1 h.2.2.2.1 h.2.2.2.2.1 h.2.2.2.2.2.1
    h.2.2.2.2.2.2.1 h.2.2.2.2.2.2.2.1 h.2.2.2.2.2.2.2.2.1 h.2.2.2.2.2.2.2.2.2

theorem Invite_fieldsLe (env : Env) (g : Globals)
    (fname lname email captchaResponse remoteIP : String) :
    fieldsLe g (Invite env g fname lname email captchaResponse remoteIP).g := by
  unfold fieldsLe Invite
  split
  · simp
  · split
    · simp
    · split <;> simp

theorem homepage_fieldsLe (rate : Int) (g : Globals) : fieldsLe g (homepage rate g) := by
  simp [fieldsLe, homepage]

theorem handleInvite_invite_g (env : Env) (g : Globals) (r : Request)
    (remoteIP port : String)
    (hm : r.Method = "POST") (he : r.FormValue "email" ≠ "") (hf : r.FormValue "fname" ≠ "")
    (hl : r.FormValue "lname" ≠ "") (hc : r.FormValue "coc" = "1")
    (hs : env.SplitHostPort r.RemoteAddr = .ok (remoteIP, port)) :
    (handleInvite env g r).g
      = (Invite env { g with successfulCaptcha := g.successfulCaptcha + 1 }
          (r.FormValue "fname") (r.FormValue "lname") (r.FormValue "email")
          (r.FormValue "g-recaptcha-response") remoteIP).g := by
  simp only [handleInvite, hm, he, hf, hl, hc, hs, ne_eq, not_true_eq_false, if_false,
    not_false_eq_true]
  split
  · split_ifs <;> rfl
  · rfl

theorem handleInvite_fieldsLe (env : Env) (g : Globals) (r : Request) :
    fieldsLe g (handleInvite env g r).g := by
  by_cases hm : r.Method = "POST"
  swap
  · simp [handleInvite, hm, fieldsLe]
  by_cases he : r.FormValue "email" = ""
  · simp [handleInvite, hm, he, fieldsLe]
  by_cases hf : r.FormValue "fname" = ""
  · simp [handleInvite, hm, he, hf, fieldsLe]
  by_cases hl : r.FormValue "lname" = ""
  · simp [handleInvite, hm, he, hf, hl, fieldsLe]
  by_cases hc : r.FormValue "coc" = "1"
  swap
  · simp [handleInvite, hm, he, hf, hl, hc, fieldsLe]
  cases hs : env.SplitHostPort r.RemoteAddr with
  | error e => simp [handleInvite, hm, he, hf, hl, hc, hs, fieldsLe]
  | ok hp =>
    obtain ⟨remoteIP, port⟩ := hp
    rw [handleInvite_invite_g env g r remoteIP port hm he hf hl hc hs]
    have h := Invite_fieldsLe env { g with successfulCaptcha := g.successfulCaptcha + 1 }
      (r.FormValue "fname") (r.FormValue "lname") (r.FormValue "email")
      (r.FormValue "g-recaptcha-response") remoteIP
    unfold fieldsLe at h ⊢
    simp only at h
    exact ⟨h.1, h.2.1, h.2.2.1, h.2.2.2.1, h.2.2.2.2.1, h.2.2.2.2.2.1,
      h.2.2.2.2.2.2.1, h.2.2.2.2.2.2.2.1, by linarith [h.2.2.2.2.2.2.2.2.1],
      h.2.2.2.2.2.2.2.2.2⟩

theorem UpdateFromSlack_fieldsLe (script : List NextAnswer)
    (teamInfo : Except String TeamInfo) (g : Globals) (res : PollResult)
    (h : UpdateFromSlack script teamInfo g = some res) : fieldsLe g res.g := by
  unfold UpdateFromSlack at h
  cases hl : pagingLoop script GetUsersPaginated none 0 0 [] with
  | none => simp [hl] at h
  | some l =>
    simp only [hl] at h
    split_ifs at h
    · cases h
      simp [fieldsLe]
    · cases teamInfo with
      | error e =>
        cases h
        simp [fieldsLe]
      | ok st =>
        cases h
        simp [fieldsLe]

/-- C8 refuted: published counters that get lower.  A poll cycle over the single
page `mixedPage` takes "user_count" from 7 to 1 and "active_user_count" from 3
to 1; a homepage hit at a rate of 1 takes "hits_per_minute" from 9 to 1. -/
theorem registry_counter_decreases :
    (registry staleGlobals).lookup "user_count" = some 7 ∧
    (registry staleGlobals).lookup "active_user_count" = some 3 ∧
    (UpdateFromSlack [(mixedPage, none), (mixedPage, some .paginationComplete)]
        (.ok gophers) staleGlobals).map
          (fun r => ((registry r.g).lookup "user_count",
                     (registry r.g).lookup "active_user_count"))
      = some (some 1, some 1) ∧
    (registry { zeroGlobals with hitsPerMinute := 9 }).lookup "hits_per_minute" = some 9 ∧
    (registry (homepage 1 { zeroGlobals with hitsPerMinute := 9 })).lookup "hits_per_minute"
      = some 1 := by
  decide

/-- C8 as amended: every counter of the metrics registry other than
"hits_per_minute", "user_count" and "active_user_count" is non-decreasing: after
`homepage`, `handleInvite`, `Invite` and a returning `UpdateFromSlack` its value
is at least the value it had before. -/
theorem registry_nonDecreasing (env : Env) (g : Globals) (rate : Int) (r : Request)
    (fname lname email captchaResponse remoteIP : String)
    (script : List NextAnswer) (teamInfo : Except String TeamInfo) :
    nonDecreasing g (homepage rate g) ∧
    nonDecreasing g (handleInvite env g r).g ∧
    nonDecreasing g (Invite env g fname lname email captchaResponse remoteIP).g ∧
    (∀ res, UpdateFromSlack script teamInfo g = some res → nonDecreasing g res.g) :=
  ⟨nonDecreasing_of_fieldsLe _ _ (homepage_fieldsLe rate g),
   nonDecreasing_of_fieldsLe _ _ (handleInvite_fieldsLe env g r),
   nonDecreasing_of_fieldsLe _ _ (Invite_fieldsLe env g fname lname email captchaResponse
     remoteIP),
   fun res h => nonDecreasing_of_fieldsLe _ _ (UpdateFromSlack_fieldsLe script teamInfo g res h)⟩

/-- Witness of amended C8: the poll cycle over `mixedPage` returns, and none of
the counters outside `setNames` is lower afterwards. -/
theorem registry_nonDecreasing_witness :
    nonDecreasing staleGlobals { staleGlobals with UserCount := 1, ActiveUserCount := 1 } :=
  (registry_nonDecreasing (envWith true) staleGlobals 1 (post []) "" "" "" "" ""
      [(mixedPage, none), (mixedPage, some .paginationComplete)] (.ok gophers)).2.2.2
    { g := { staleGlobals with UserCount := 1, ActiveUserCount := 1 }, delay := Hour,
      trace := [.Next GetUsersPaginated, .Next mixedPage, .GetTeamInfo] }
    (by decide)

end SlackInviter
